import Mathlib

/-!
Verification of the PrintEasy print-shop order workflow
(`printeasy.py`: customer intake form; `admin.py`: admin panel).

Shallow embedding conventions:
* Monetary values are rationals (`ℚ`).  Every price constant in the source
  (`5.0`, `2.0`, the `0.5` double-sided multiplier) is a dyadic rational and
  every pricing computation is a product of such constants with small
  integers, so IEEE-754 double arithmetic is exact on them and agrees with
  `ℚ`.
* Timestamps (`datetime.now().isoformat()` strings) are modelled as integers
  (e.g. seconds); ISO-8601 strings of a fixed format compare
  lexicographically exactly as their instants compare numerically, and both
  SQLite's `<` on these TEXT values and the model's `<` on `Int` respect
  that order.
* The SQLite table `print_requests` is modelled as a list of rows plus the
  `AUTOINCREMENT` sequence counter (SQLite's `AUTOINCREMENT` never reuses an
  id, so the counter only grows).
* Strings are modelled by Lean `String`; inputs considered are ASCII.
-/

/-- `COLOR_PRICE_PER_SIDE = 5.0` from `printeasy.py`. -/
def COLOR_PRICE_PER_SIDE : ℚ := 5

/-- `BW_PRICE_PER_SIDE = 2.0` from `printeasy.py`. -/
def BW_PRICE_PER_SIDE : ℚ := 2

/-- `calculate_price(page_count, copies, is_color, print_layout)` from
`printeasy.py`.  `page_count` is `Option Int` because the caller may pass the
`None` sentinel produced by `get_pdf_page_count` for an unreadable PDF; the
source guards `if page_count is None or page_count <= 0 or copies <= 0:
return 0.0` before the arithmetic. -/
def calculate_price (page_count : Option Int) (copies : Int) (is_color : Bool)
    (print_layout : String) : ℚ :=
  match page_count with
  | none => 0
  | some pc =>
    if pc ≤ 0 ∨ copies ≤ 0 then 0
    else
      let base_price_per_side : ℚ :=
        if is_color then COLOR_PRICE_PER_SIDE else BW_PRICE_PER_SIDE
      let price_multiplier : ℚ := if print_layout = "Double-sided" then 1/2 else 1
      let price_per_original_page := base_price_per_side * price_multiplier
      (pc : ℚ) * price_per_original_page * (copies : ℚ)

/-- Unfolding of `calculate_price` on the branch where there is something to
price. -/
theorem calculate_price_of_pos (pages copies : Int) (is_color : Bool)
    (layout : String) (h : ¬ (pages ≤ 0 ∨ copies ≤ 0)) :
    calculate_price (some pages) copies is_color layout
      = (pages : ℚ) * ((if is_color then 5 else 2)
          * (if layout = "Double-sided" then 1/2 else 1)) * (copies : ℚ) := by
  simp only [calculate_price, COLOR_PRICE_PER_SIDE, BW_PRICE_PER_SIDE, if_neg h]

/-- The spec's `unit_price`: `5.0` for colour, `2.0` for black-and-white. -/
def unit_price (is_color : Bool) : ℚ := if is_color then 5 else 2

/-- The spec's `layout_multiplier`: `0.5` for `Double-sided`, `1.0` for
`Single-sided`. -/
def layout_multiplier (layout : String) : ℚ :=
  if layout = "Double-sided" then 1/2 else 1

/-- C1: for pages > 0, copies > 0 and a layout in {Single-sided,
Double-sided}, `calculate_price` equals
`pages × unit_price(is_color) × layout_multiplier(layout) × copies`. -/
theorem C1_price_formula (pages copies : Int) (is_color : Bool) (layout : String)
    (hp : 0 < pages) (hc : 0 < copies)
    (_hl : layout = "Single-sided" ∨ layout = "Double-sided") :
    calculate_price (some pages) copies is_color layout
      = (pages : ℚ) * unit_price is_color * layout_multiplier layout * (copies : ℚ) := by
  have h : ¬ (pages ≤ 0 ∨ copies ≤ 0) := by omega
  rw [calculate_price_of_pos pages copies is_color layout h, unit_price,
    layout_multiplier]
  ring

/-- Witness for C1 at the spec's end-to-end example: 10 pages, 2 copies,
colour: single-sided prices at 100.0, double-sided at 50.0. -/
theorem C1_price_formula_witness :
    ((0 : Int) < 10 ∧ (0 : Int) < 2) ∧
    calculate_price (some 10) 2 true "Single-sided"
      = (10 : ℚ) * unit_price true * layout_multiplier "Single-sided" * 2 ∧
    calculate_price (some 10) 2 true "Double-sided"
      = (10 : ℚ) * unit_price true * layout_multiplier "Double-sided" * 2 ∧
    calculate_price (some 10) 2 true "Single-sided" = 100 ∧
    calculate_price (some 10) 2 true "Double-sided" = 50 :=
  ⟨⟨by norm_num, by norm_num⟩,
   C1_price_formula 10 2 true "Single-sided" (by norm_num) (by norm_num) (Or.inl rfl),
   C1_price_formula 10 2 true "Double-sided" (by norm_num) (by norm_num) (Or.inr rfl),
   by
    rw [calculate_price_of_pos 10 2 true "Single-sided" (by norm_num), if_pos rfl,
      if_neg (by decide : ¬ ("Single-sided" : String) = "Double-sided")]
    norm_num,
   by
    rw [calculate_price_of_pos 10 2 true "Double-sided" (by norm_num), if_pos rfl,
      if_pos (rfl : ("Double-sided" : String) = "Double-sided")]
    norm_num⟩

/-- C7: price is 0.0 whenever `pages ≤ 0`, and 0.0 whenever `copies ≤ 0`,
with no error raised (the function is total). -/
theorem C7_nothing_to_price (pages copies : Int) (is_color : Bool) (layout : String) :
    (pages ≤ 0 → calculate_price (some pages) copies is_color layout = 0) ∧
    (copies ≤ 0 → calculate_price (some pages) copies is_color layout = 0) := by
  constructor <;> intro h <;> simp [calculate_price, h]

/-- Witness for C7: zero pages and zero copies both price at 0. -/
theorem C7_nothing_to_price_witness :
    calculate_price (some 0) 3 true "Single-sided" = 0 ∧
    calculate_price (some 5) 0 false "Double-sided" = 0 :=
  ⟨(C7_nothing_to_price 0 3 true "Single-sided").1 (by norm_num),
   (C7_nothing_to_price 5 0 false "Double-sided").2 (by norm_num)⟩

/-- C8: for pages > 0 and copies > 0, the double-sided price is exactly half
the single-sided price. -/
theorem C8_double_sided_halves (pages copies : Int) (is_color : Bool)
    (hp : 0 < pages) (hc : 0 < copies) :
    calculate_price (some pages) copies is_color "Double-sided"
      = (1/2 : ℚ) * calculate_price (some pages) copies is_color "Single-sided" := by
  have h : ¬ (pages ≤ 0 ∨ copies ≤ 0) := by omega
  rw [calculate_price_of_pos pages copies is_color "Double-sided" h,
    calculate_price_of_pos pages copies is_color "Single-sided" h]
  have h1 : ("Double-sided" : String) = "Double-sided" := rfl
  have h2 : ("Single-sided" : String) ≠ "Double-sided" := by decide
  rw [if_pos h1, if_neg h2]
  ring

/-- Witness for C8 at 10 pages, 2 copies, colour. -/
theorem C8_double_sided_halves_witness :
    calculate_price (some 10) 2 true "Double-sided"
      = (1/2 : ℚ) * calculate_price (some 10) 2 true "Single-sided" :=
  C8_double_sided_halves 10 2 true (by norm_num) (by norm_num)

/-- C10: `calculate_price` is total over the `None` page-count sentinel that
`get_pdf_page_count` returns for an unreadable PDF: it returns 0.0 for every
copies, colour flag and layout, rather than raising. -/
theorem C10_none_prices_zero (copies : Int) (is_color : Bool) (layout : String) :
    calculate_price none copies is_color layout = 0 :=
  rfl

/-- C9 amended: for pages > 0 and copies > 0, the colour price divided by the
black-and-white price is 5/2 for any fixed pages, copies and layout. -/
theorem C9_color_bw_ratio (pages copies : Int) (layout : String)
    (hp : 0 < pages) (hc : 0 < copies) :
    calculate_price (some pages) copies true layout
      / calculate_price (some pages) copies false layout = 5/2 := by
  have h : ¬ (pages ≤ 0 ∨ copies ≤ 0) := by omega
  have hpq : (pages : ℚ) ≠ 0 := Int.cast_ne_zero.mpr (by omega)
  have hcq : (copies : ℚ) ≠ 0 := Int.cast_ne_zero.mpr (by omega)
  by_cases hl : layout = "Double-sided"
  · rw [calculate_price_of_pos pages copies true layout h,
      calculate_price_of_pos pages copies false layout h, if_pos hl]
    norm_num
    field_simp
    ring
  · rw [calculate_price_of_pos pages copies true layout h,
      calculate_price_of_pos pages copies false layout h, if_neg hl]
    norm_num
    field_simp
    ring

/-- C9 counterexample: with no restriction on pages, the claimed ratio fails;
at pages = 0 both prices are 0.0 (in the source, `0.0 / 0.0` would raise a
`ZeroDivisionError` rather than equal 5/2; in `ℚ`, `0 / 0 = 0 ≠ 5/2`). -/
theorem C9_color_bw_ratio_counterexample :
    ¬ (calculate_price (some 0) 1 true "Single-sided"
        / calculate_price (some 0) 1 false "Single-sided" = 5/2) := by
  have h0 : calculate_price (some 0) 1 true "Single-sided" = 0 := by
    simp [calculate_price]
  have h1 : calculate_price (some 0) 1 false "Single-sided" = 0 := by
    simp [calculate_price]
  rw [h0, h1]
  norm_num

/-- Witness for C9's amended theorem at 10 pages, 2 copies, single-sided. -/
theorem C9_color_bw_ratio_witness :
    calculate_price (some 10) 2 true "Single-sided"
      / calculate_price (some 10) 2 false "Single-sided" = 5/2 :=
  C9_color_bw_ratio 10 2 "Single-sided" (by norm_num) (by norm_num)

/-- `validate_phone(phone)` from `printeasy.py`:
`bool(re.match(PHONE_REGEX, phone))` with `PHONE_REGEX = r'^\d{10}$'`.
Python's `re.match` anchors at the start of the string, and `$` (without
`re.MULTILINE`) matches at the end of the string and also just before a
newline at the end of the string, so the regex matches ten digits optionally
followed by one final newline.  `\d` is modelled as an ASCII digit (inputs
considered are ASCII). -/
def validate_phone (phone : String) : Bool :=
  let cs := phone.data
  (cs.length == 10 && cs.all Char.isDigit)
    || (cs.length == 11 && (cs.take 10).all Char.isDigit
          && cs.getLast? == some '\n')

/-- C3 counterexample: the string of ten digits followed by a newline is not
ten ASCII digit characters (it has eleven characters), yet `validate_phone`
accepts it, because Python's `$` also matches just before a trailing
newline. -/
theorem C3_phone_counterexample :
    validate_phone "1234567890\n" = true ∧
    ¬ (("1234567890\n").data.length = 10 ∧
        ∀ c ∈ ("1234567890\n").data, c.isDigit = true) := by
  decide

/-- C3 amended: `validate_phone s` is true iff `s` is exactly ten ASCII
digits, or exactly ten ASCII digits followed by one final newline; in
particular it accepts "9876543210" and rejects "987654321" (9 digits),
"98765432100" (11 digits) and "987654321a" (non-digit). -/
theorem C3_phone_validation :
    (∀ s : String, validate_phone s = true ↔
      ((s.data.length = 10 ∧ ∀ c ∈ s.data, c.isDigit = true) ∨
       (s.data.length = 11 ∧ (∀ c ∈ s.data.take 10, c.isDigit = true) ∧
         s.data.getLast? = some '\n'))) ∧
    validate_phone "9876543210" = true ∧
    validate_phone "987654321" = false ∧
    validate_phone "98765432100" = false ∧
    validate_phone "987654321a" = false := by
  refine ⟨fun s => ?_, by decide, by decide, by decide, by decide⟩
  simp only [validate_phone, List.all_eq_true, Bool.or_eq_true, Bool.and_eq_true,
    beq_iff_eq]
  tauto

/-- One row of the SQLite table `print_requests` (see `init_db` in
`printeasy.py`). -/
structure Request where
  id : Nat
  phone : String
  doc_link : String
  screenshot_link : String
  pages : Int
  copies : Int
  is_color : Bool
  layout : String
  pages_per_sheet : String
  price : ℚ
  submitted_at : Int
  status : String
  deriving DecidableEq

/-- The shared order store: the rows of `print_requests` plus the SQLite
`AUTOINCREMENT` sequence counter (the table is declared with
`id INTEGER PRIMARY KEY AUTOINCREMENT`, so a fresh row gets id `seq + 1`
and an id is never reused, even after deletions). -/
structure Store where
  rows : List Request
  seq : Nat
  deriving DecidableEq

/-- `save_request(...)` from `printeasy.py`.  The source inserts the row with
`status='Pending'` and `submitted_at = datetime.now().isoformat()`
(`t_insert` here), commits, then tries to fetch the new row's id with
`SELECT id FROM print_requests WHERE phone = ? AND submitted_at = ?` whose
`submitted_at` parameter is a second, fresh `datetime.now().isoformat()`
(`t_verify` here), and returns that `fetchone()` result — `None` when no row
matches.  The model returns the updated store with the returned id. -/
def save_request (phone doc_link screenshot_link : String) (pages copies : Int)
    (is_color : Bool) (layout pages_per_sheet : String) (price : ℚ)
    (t_insert t_verify : Int) (s : Store) : Store × Option Nat :=
  let row : Request :=
    { id := s.seq + 1, phone := phone, doc_link := doc_link,
      screenshot_link := screenshot_link, pages := pages, copies := copies,
      is_color := is_color, layout := layout,
      pages_per_sheet := pages_per_sheet, price := price,
      submitted_at := t_insert, status := "Pending" }
  let rows2 := s.rows ++ [row]
  let found := rows2.filter
    (fun r => r.phone == phone && r.submitted_at == t_verify)
  (⟨rows2, s.seq + 1⟩, (found.head?).map Request.id)

/-- `mark_as_done(request_id)` from `admin.py`:
`UPDATE print_requests SET status = 'Done' WHERE id = ?`. -/
def mark_as_done (request_id : Nat) (s : Store) : Store :=
  let rows2 := s.rows.map
    (fun r => if r.id = request_id then { r with status := "Done" } else r)
  { s with rows := rows2 }

/-- `clean_old_completed_requests()` from `admin.py`: compute
`cutoff = now - 12h`, select the ids of the rows with
`status = 'Done' AND submitted_at < cutoff`, then delete each selected row
by id.  With timestamps in seconds the cutoff is `now - 12 * 3600`. -/
def clean_old_completed_requests (now : Int) (s : Store) : Store :=
  let cutoff := now - 12 * 3600
  let old_requests := (s.rows.filter
      (fun r => r.status == "Done" && decide (r.submitted_at < cutoff))).map
    Request.id
  { s with rows := s.rows.filter (fun r => !(decide (r.id ∈ old_requests))) }

/-- The arguments of one `save_request` call: the form fields plus the two
`datetime.now()` readings made during the call. -/
structure SaveArgs where
  phone : String
  doc_link : String
  screenshot_link : String
  pages : Int
  copies : Int
  is_color : Bool
  layout : String
  pages_per_sheet : String
  price : ℚ
  t_insert : Int
  t_verify : Int
  deriving DecidableEq

/-- The operations that touch the shared order store: a customer submission
(`save_request`), the operator action (`mark_as_done`) and the retention
sweep (`clean_old_completed_requests`). -/
inductive StoreOp where
  | save : SaveArgs → StoreOp
  | markDone : Nat → StoreOp
  | clean : Int → StoreOp
  deriving DecidableEq

/-- Effect of one operation on the store. -/
def applyOp (o : StoreOp) (s : Store) : Store :=
  match o with
  | .save a =>
      (save_request a.phone a.doc_link a.screenshot_link a.pages a.copies
        a.is_color a.layout a.pages_per_sheet a.price a.t_insert a.t_verify
        s).1
  | .markDone i => mark_as_done i s
  | .clean now => clean_old_completed_requests now s

/-- Effect of a sequence of operations, oldest first. -/
def applyOps (ops : List StoreOp) (s : Store) : Store :=
  ops.foldl (fun t o => applyOp o t) s

/-- Every row with id `i` has status `"Done"`. -/
def doneLocked (i : Nat) (s : Store) : Bool :=
  s.rows.all (fun r => r.id != i || r.status == "Done")

theorem doneLocked_iff (i : Nat) (s : Store) :
    doneLocked i s = true ↔ ∀ r ∈ s.rows, r.id = i → r.status = "Done" := by
  simp only [doneLocked, List.all_eq_true, Bool.or_eq_true, bne_iff_ne, ne_eq,
    beq_iff_eq]
  constructor
  · intro h r hr hid
    rcases h r hr with h1 | h1
    · exact absurd hid h1
    · exact h1
  · intro h r hr
    by_cases hid : r.id = i
    · exact Or.inr (h r hr hid)
    · exact Or.inl hid

/-- C2: given the primary-key invariant (row ids are distinct), the retention
sweep keeps exactly the rows that are not (`Done` and submitted strictly
before `now - 12h`): every `Done` row strictly older than the cutoff is
deleted and nothing else is deleted. -/
theorem C2_retention_sweep (now : Int) (s : Store)
    (hid : (s.rows.map Request.id).Nodup) :
    (clean_old_completed_requests now s).rows
      = s.rows.filter (fun r =>
          !(r.status == "Done" && decide (r.submitted_at < now - 12 * 3600))) := by
  have hdef : (clean_old_completed_requests now s).rows
      = s.rows.filter (fun r => !(decide (r.id ∈
          ((s.rows.filter (fun x => x.status == "Done"
              && decide (x.submitted_at < now - 12 * 3600))).map Request.id)))) :=
    rfl
  rw [hdef]
  apply List.filter_congr
  intro r hr
  congr 1
  by_cases hp : (r.status == "Done" && decide (r.submitted_at < now - 12 * 3600)) = true
  · rw [hp]
    simp only [decide_eq_true_eq]
    exact List.mem_map.mpr ⟨r, List.mem_filter.mpr ⟨hr, hp⟩, rfl⟩
  · have hp2 : (r.status == "Done" && decide (r.submitted_at < now - 12 * 3600)) = false :=
      Bool.eq_false_iff.mpr hp
    rw [hp2]
    rw [decide_eq_false_iff_not]
    intro hmem
    obtain ⟨y, hy, hyid⟩ := List.mem_map.mp hmem
    obtain ⟨hy_mem, hy_pred⟩ := List.mem_filter.mp hy
    have hyr : y = r := List.inj_on_of_nodup_map hid hy_mem hr hyid
    rw [hyr] at hy_pred
    exact hp hy_pred

/-- A concrete row for the witness stores. -/
def exReq (i : Nat) (t : Int) (st : String) : Request :=
  { id := i, phone := "9876543210", doc_link := "d", screenshot_link := "s",
    pages := 10, copies := 2, is_color := true, layout := "Single-sided",
    pages_per_sheet := "1 page per side", price := 100, submitted_at := t,
    status := st }

/-- Store for the C2 witness, read at `now = 360000` seconds: a `Done` row
submitted 13 hours before `now`, a `Done` row submitted 11 hours before
`now`, and a `Pending` row submitted 100 hours before `now`. -/
def exStoreC2 : Store :=
  { rows := [exReq 1 (360000 - 13 * 3600) "Done",
             exReq 2 (360000 - 11 * 3600) "Done",
             exReq 3 (360000 - 100 * 3600) "Pending"], seq := 3 }

/-- Witness for C2: the sweep at `now = 360000` deletes only the 13-hour-old
`Done` row; the 11-hour-old `Done` row and the 100-hour-old `Pending` row
survive. -/
theorem C2_retention_sweep_witness :
    ((exStoreC2.rows.map Request.id).Nodup) ∧
    (clean_old_completed_requests 360000 exStoreC2).rows
      = exStoreC2.rows.filter (fun r =>
          !(r.status == "Done" && decide (r.submitted_at < 360000 - 12 * 3600))) ∧
    ((clean_old_completed_requests 360000 exStoreC2).rows.map Request.id) = [2, 3] :=
  ⟨by decide, C2_retention_sweep 360000 exStoreC2 (by decide), by decide⟩

/-- C4: `mark_as_done` is idempotent in effect: if every row carrying the
target id is already `Done`, marking it `Done` again leaves the whole store
unchanged (and, the model being a total function, raises no error). -/
theorem C4_mark_as_done_idempotent (s : Store) (request_id : Nat)
    (h : ∀ r ∈ s.rows, r.id = request_id → r.status = "Done") :
    mark_as_done request_id s = s := by
  cases s with
  | mk rows seq =>
    simp only [mark_as_done, Store.mk.injEq, and_true]
    have hpt : ∀ r ∈ rows,
        (if r.id = request_id then { r with status := "Done" } else r) = r := by
      intro r hr
      by_cases hid : r.id = request_id
      · rw [if_pos hid]
        have hst := h r hr hid
        cases r
        simp_all
      · rw [if_neg hid]
    calc rows.map (fun r => if r.id = request_id then { r with status := "Done" } else r)
        = rows.map (fun r => r) := List.map_congr_left hpt
      _ = rows := List.map_id' rows

/-- Store for the C4 witness: one row, already `Done`. -/
def exStoreC4 : Store := { rows := [exReq 1 0 "Done"], seq := 1 }

/-- Witness for C4: re-marking the already-`Done` row 1 changes nothing. -/
theorem C4_mark_as_done_idempotent_witness :
    (∀ r ∈ exStoreC4.rows, r.id = 1 → r.status = "Done") ∧
    mark_as_done 1 exStoreC4 = exStoreC4 :=
  ⟨by decide, C4_mark_as_done_idempotent exStoreC4 1 (by decide)⟩

/-- `save_request` appends exactly one row, with status `"Pending"` and the
next `AUTOINCREMENT` id. -/
theorem save_request_spec (phone doc_link screenshot_link : String)
    (pages copies : Int) (is_color : Bool) (layout pages_per_sheet : String)
    (price : ℚ) (t_insert t_verify : Int) (s : Store) :
    ∃ row, (save_request phone doc_link screenshot_link pages copies is_color
          layout pages_per_sheet price t_insert t_verify s).1
        = { rows := s.rows ++ [row], seq := s.seq + 1 }
      ∧ row.status = "Pending" ∧ row.id = s.seq + 1 :=
  ⟨_, rfl, rfl, rfl⟩

/-- One store operation cannot unlock a `Done` id: if `i` is an already
allocated id (`i ≤ s.seq`) and every row with id `i` is `Done`, the same
holds after the operation, and `i` stays allocated. -/
theorem applyOp_doneLocked (o : StoreOp) (s : Store) (i : Nat)
    (hi : i ≤ s.seq) (h : doneLocked i s = true) :
    i ≤ (applyOp o s).seq ∧ doneLocked i (applyOp o s) = true := by
  rw [doneLocked_iff] at h
  cases o with
  | save a =>
    obtain ⟨row, heq, hst, hid2⟩ := save_request_spec a.phone a.doc_link
      a.screenshot_link a.pages a.copies a.is_color a.layout a.pages_per_sheet
      a.price a.t_insert a.t_verify s
    have happ : applyOp (.save a) s = { rows := s.rows ++ [row], seq := s.seq + 1 } := heq
    rw [happ]
    constructor
    · show i ≤ s.seq + 1
      omega
    · rw [doneLocked_iff]
      intro r hr hrid
      rcases List.mem_append.mp hr with hr2 | hr2
      · exact h r hr2 hrid
      · have hrr : r = row := List.mem_singleton.mp hr2
        subst hrr
        exfalso
        omega
  | markDone j =>
    constructor
    · exact hi
    · rw [doneLocked_iff]
      intro r hr hrid
      have hrows : (applyOp (.markDone j) s).rows = s.rows.map
          (fun x => if x.id = j then { x with status := "Done" } else x) := rfl
      rw [hrows] at hr
      obtain ⟨x, hx, hxr⟩ := List.mem_map.mp hr
      by_cases hxj : x.id = j
      · rw [if_pos hxj] at hxr
        rw [← hxr]
      · rw [if_neg hxj] at hxr
        subst hxr
        exact h x hx hrid
  | clean now =>
    constructor
    · exact hi
    · rw [doneLocked_iff]
      intro r hr hrid
      have hr2 : r ∈ s.rows.filter
          (fun x => !(decide (x.id ∈ ((s.rows.filter (fun y => y.status == "Done"
              && decide (y.submitted_at < now - 12 * 3600))).map Request.id)))) := hr
      exact h r (List.mem_filter.mp hr2).1 hrid

/-- A sequence of store operations cannot unlock a `Done` id. -/
theorem applyOps_doneLocked (ops : List StoreOp) (s : Store) (i : Nat)
    (hi : i ≤ s.seq) (h : doneLocked i s = true) :
    doneLocked i (applyOps ops s) = true := by
  induction ops generalizing s with
  | nil => exact h
  | cons o rest ih =>
    have step := applyOp_doneLocked o s i hi h
    exact ih (applyOp o s) step.1 step.2

/-- C5: order status is monotonic across every operation of the system:
`save_request` creates its one new row with status `"Pending"` (and a fresh
id); `mark_as_done` only ever rewrites a row's status to `"Done"`, leaving
every other row untouched; and for an already-allocated id `i` whose rows
are all `Done`, no reachable sequence of store operations (submissions,
mark-as-done clicks, retention sweeps) ever produces a row with id `i`
whose status is not `"Done"` — in particular none ever goes back to
`"Pending"`. -/
theorem C5_status_monotonic :
    (∀ (phone doc_link screenshot_link : String) (pages copies : Int)
        (is_color : Bool) (layout pages_per_sheet : String) (price : ℚ)
        (t_insert t_verify : Int) (s : Store),
      ∃ row, (save_request phone doc_link screenshot_link pages copies is_color
            layout pages_per_sheet price t_insert t_verify s).1
          = { rows := s.rows ++ [row], seq := s.seq + 1 }
        ∧ row.status = "Pending" ∧ row.id = s.seq + 1) ∧
    (∀ (j : Nat) (s : Store) (r2 : Request), r2 ∈ (mark_as_done j s).rows →
      r2 ∈ s.rows ∨ ∃ r ∈ s.rows, r.id = j ∧ r2 = { r with status := "Done" }) ∧
    (∀ (s : Store) (i : Nat) (ops : List StoreOp),
      i ≤ s.seq → doneLocked i s = true → doneLocked i (applyOps ops s) = true) := by
  refine ⟨save_request_spec, ?_, fun s i ops hi h => applyOps_doneLocked ops s i hi h⟩
  · intro j s r2 hr2
    have hrows : (mark_as_done j s).rows = s.rows.map
        (fun x => if x.id = j then { x with status := "Done" } else x) := rfl
    rw [hrows] at hr2
    obtain ⟨x, hx, hxr⟩ := List.mem_map.mp hr2
    by_cases hxj : x.id = j
    · rw [if_pos hxj] at hxr
      exact Or.inr ⟨x, hx, hxj, hxr.symm⟩
    · rw [if_neg hxj] at hxr
      exact Or.inl (hxr ▸ hx)

/-- Store for the C5 witness: row 1 already `Done`, row 2 `Pending`. -/
def exStoreC5 : Store := { rows := [exReq 1 0 "Done", exReq 2 0 "Pending"], seq := 2 }

/-- Operations for the C5 witness: a mark-as-done click on row 2, a retention
sweep long after both submissions, and a fresh customer submission. -/
def exOpsC5 : List StoreOp :=
  [.markDone 2, .clean 400000,
   .save { phone := "9876543210", doc_link := "d", screenshot_link := "s",
           pages := 10, copies := 2, is_color := true, layout := "Single-sided",
           pages_per_sheet := "1 page per side", price := 100,
           t_insert := 400001, t_verify := 400002 }]

/-- Witness for C5: id 1 is allocated and `Done` in `exStoreC5`, and after a
mark-as-done, a sweep and a new submission it is still never non-`Done`. -/
theorem C5_status_monotonic_witness :
    (1 ≤ exStoreC5.seq ∧ doneLocked 1 exStoreC5 = true) ∧
    doneLocked 1 (applyOps exOpsC5 exStoreC5) = true :=
  ⟨⟨by decide, by decide⟩,
   C5_status_monotonic.2.2 exStoreC5 1 exOpsC5 (by decide) (by decide)⟩

/-- The Pickup submission branch of `printeasy.py`: after
`request_id = save_request(...)`, the code runs `if request_id:` and shows
the success message, else shows "Failed to save request to database." and
stops.  The user is reported success exactly when the returned id is
non-`None`. -/
def pickup_reported_success (request_id : Option Nat) : Bool :=
  request_id.isSome

/-- The C6 failing run: `save_request` called on the empty store with the
first `datetime.now()` reading (the stored `submitted_at`) at 360000 and the
second reading (used by the verification `SELECT`) at 360001. -/
def exSaveC6 : Store × Option Nat :=
  save_request "9876543210" "d" "s" 10 2 true "Single-sided" "1 page per side"
    100 360000 360001 { rows := [], seq := 0 }

/-- C6 (code bug): in the run `exSaveC6` the insert itself succeeds — the
store now holds the new `Pending` row — yet `save_request` returns `None`,
because its verification `SELECT phone = ? AND submitted_at = ?` uses a
second, fresh `datetime.now()` reading that differs from the inserted
timestamp, so the Pickup branch reports failure to the user. -/
theorem C6_insert_succeeds_but_reported_failed :
    (exSaveC6.1.rows.map (fun r => (r.id, r.status, r.submitted_at))
        = [(1, "Pending", 360000)]) ∧
    exSaveC6.2 = none ∧
    pickup_reported_success exSaveC6.2 = false := by
  refine ⟨?_, ?_, ?_⟩ <;> decide
